import Mathlib

/-!
Verification of the grip-lifetime, variable-conversion and actor-registry
logic of the vscode-firefox-debug adapter, shallowly embedded from
`src/adapter/thread.ts`, `src/adapter/variable.ts` and the
`DebugConnection` module.  TypeScript `Map<string, T>` values are embedded
as association lists `List (String × T)` with `Map.get`/`set`/`delete`
modelled by `lookupByName`/append/`deleteName`.
-/

namespace VsCodeFirefoxDebug

/-! ### Association-list model of `Map<string, T>` -/

/-- `Map.get`: the value stored under key `n`, if any. -/
def lookupByName {α : Type} : List (String × α) → String → Option α
  | [], _ => none
  | p :: rest, n => if p.1 = n then some p.2 else lookupByName rest n

/-- `Map.delete`: remove the entry stored under key `n`. -/
def deleteName {α : Type} : List (String × α) → String → List (String × α)
  | [], _ => []
  | p :: rest, n => if p.1 = n then deleteName rest n else p :: deleteName rest n

/-- Iterated `Map.delete` over a list of keys (the `forEach` loop in
`disposePauseLifetimeAdapters`). -/
def deleteNames {α : Type} (idx : List (String × α)) : List String → List (String × α)
  | [] => idx
  | n :: rest => deleteNames (deleteName idx n) rest

/-! ### Data model: object grips and their adapters (`thread.ts`) -/

/-- The fields of a `FirefoxDebugProtocol.ObjectGrip` used by the adapter:
its remote actor name and its `class`. -/
structure ObjectGrip where
  actor : String
  cls : String
deriving Repr, DecidableEq

/-- An `ObjectGripAdapter` as created by `getOrCreateObjectGripAdapter`:
it keeps the grip it was created from, the `threadLifetime` flag passed at
creation, and a creation counter `id` modelling JavaScript object identity. -/
structure ObjectGripAdapter where
  grip : ObjectGrip
  threadLifetime : Bool
  disposed : Bool
  id : Nat
deriving Repr, DecidableEq

/-- `objectGripAdapter.actor.name` in the source. -/
def ObjectGripAdapter.actorName (a : ObjectGripAdapter) : String := a.grip.actor

/-- The `variablesProviderId` used for the `variablesReference` of a DAP
variable; identified with the adapter's identity here. -/
def ObjectGripAdapter.variablesProviderId (a : ObjectGripAdapter) : Nat := a.id

/-- The grip-lifetime state owned by a `ThreadAdapter`:
`objectGripAdaptersByActorName` (a `Map<string, ObjectGripAdapter>`),
`pauseLifetimeObjects`, and the cached `scopes` and `frames` (kept as
opaque identifiers).  `nextAdapterId` is the creation counter. -/
structure ThreadGripState where
  objectGripAdaptersByActorName : List (String × ObjectGripAdapter)
  pauseLifetimeObjects : List ObjectGripAdapter
  scopes : List Nat
  frames : List Nat
  nextAdapterId : Nat
deriving Repr, DecidableEq

/-- The state of a freshly constructed `ThreadAdapter`: empty index, empty
release list, no cached scopes or frames. -/
def initialThreadGripState : ThreadGripState :=
  { objectGripAdaptersByActorName := []
    pauseLifetimeObjects := []
    scopes := []
    frames := []
    nextAdapterId := 0 }

/-- `ThreadAdapter.getOrCreateObjectGripAdapter` (thread.ts:98-113): look the
actor name up in the index; if present return the existing adapter (and
leave the state untouched), otherwise create a new adapter, index it, and,
when not thread-lifetime, add it to `pauseLifetimeObjects`. -/
def getOrCreateObjectGripAdapter (s : ThreadGripState) (objectGrip : ObjectGrip)
    (threadLifetime : Bool) : ObjectGripAdapter × ThreadGripState :=
  match lookupByName s.objectGripAdaptersByActorName objectGrip.actor with
  | some objectGripAdapter => (objectGripAdapter, s)
  | none =>
    let objectGripAdapter : ObjectGripAdapter :=
      { grip := objectGrip
        threadLifetime := threadLifetime
        disposed := false
        id := s.nextAdapterId }
    (objectGripAdapter,
      { s with
        objectGripAdaptersByActorName :=
          s.objectGripAdaptersByActorName ++ [(objectGrip.actor, objectGripAdapter)]
        pauseLifetimeObjects :=
          if threadLifetime then s.pauseLifetimeObjects
          else s.pauseLifetimeObjects ++ [objectGripAdapter]
        nextAdapterId := s.nextAdapterId + 1 })

/-- The observable effects of `disposePauseLifetimeAdapters`, in the order
the source performs them. -/
inductive GripEvent where
  | disposeAdapter (actorName : String)
  | removeFromIndex (actorName : String)
  | clearReleaseList
  | disposeScope (id : Nat)
  | clearScopes
  | disposeFrame (id : Nat)
  | clearFrames
  | releaseMany (actorNames : List String)
deriving Repr, DecidableEq

/-- `ThreadAdapter.disposePauseLifetimeAdapters` (thread.ts:299-325): collect
the actor names of all pause-lifetime adapters, dispose each and delete it
from the index, clear the release list, dispose and clear all cached scopes
and frames, then — only if the collected list is nonempty — send a single
`releaseMany` request whose failure is swallowed by `try/catch`.
`releaseManyFails` is the outcome of that remote request; the returned
`Except` is the promise the caller awaits, the `List GripEvent` the trace of
effects in source order. -/
def disposePauseLifetimeAdapters (s : ThreadGripState) (releaseManyFails : Bool) :
    ThreadGripState × List GripEvent × Except String Unit :=
  let objectGripActorsToRelease := s.pauseLifetimeObjects.map (fun a => a.actorName)
  let s1 : ThreadGripState :=
    { s with
      objectGripAdaptersByActorName :=
        deleteNames s.objectGripAdaptersByActorName objectGripActorsToRelease
      pauseLifetimeObjects := []
      scopes := []
      frames := [] }
  let events : List GripEvent :=
    (s.pauseLifetimeObjects.flatMap (fun a =>
      [GripEvent.disposeAdapter a.actorName, GripEvent.removeFromIndex a.actorName]))
    ++ [GripEvent.clearReleaseList]
    ++ (s.scopes.map GripEvent.disposeScope) ++ [GripEvent.clearScopes]
    ++ (s.frames.map GripEvent.disposeFrame) ++ [GripEvent.clearFrames]
    ++ (if objectGripActorsToRelease.length > 0
        then [GripEvent.releaseMany objectGripActorsToRelease] else [])
  let result : Except String Unit :=
    if objectGripActorsToRelease.length > 0 then
      -- try { await this.actor.releaseMany(...) } catch(err) {}
      match (if releaseManyFails then Except.error "releaseMany failed" else Except.ok ()) with
      | Except.ok u => Except.ok u
      | Except.error _ => Except.ok ()
    else Except.ok ()
  (s1, events, result)

deriving instance DecidableEq for Except

/-- Whether an effect is a bulk release request to the remote peer. -/
def isReleaseManyEvent : GripEvent → Bool
  | GripEvent.releaseMany _ => true
  | _ => false

/-- Well-formedness of the grip state, maintained by the `ThreadAdapter`:
every pause-lifetime adapter is indexed under its actor name and was created
with `threadLifetime = false`, and the index holds at most one entry per
actor name. -/
def WFGripState (s : ThreadGripState) : Prop :=
  (∀ a ∈ s.pauseLifetimeObjects,
    lookupByName s.objectGripAdaptersByActorName a.actorName = some a
      ∧ a.threadLifetime = false)
  ∧ (s.objectGripAdaptersByActorName.map Prod.fst).Nodup

instance (s : ThreadGripState) : Decidable (WFGripState s) := by
  unfold WFGripState; infer_instance

/-! ### Grips and variables (`variable.ts`) -/

/-- The fields of a non-primitive grip (`grip.type`, and the fields the
recognized subtypes use: `class` and `actor` for `object`, `initial` for
`longString`, `name` for `symbol`). -/
structure TaggedGrip where
  type : String
  cls : String
  actor : String
  initial : String
  symbolName : String
deriving Repr, DecidableEq

/-- A `FirefoxDebugProtocol.Grip`: a JavaScript boolean, number or string,
or an object carrying a `type` tag. -/
inductive Grip where
  | boolean (b : Bool)
  | number (n : Int)
  | stringValue (value : String)
  | tagged (g : TaggedGrip)
deriving Repr, DecidableEq

/-- JavaScript `toString()` on a boolean. -/
def boolToString : Bool → String
  | true => "true"
  | false => "false"

/-- JavaScript `toString()` on an (integral) number: decimal rendering. -/
def numberToString (n : Int) : String := toString n

/-- A `VariableAdapter`: a name, a display value, and an optional associated
object grip adapter. -/
structure VariableAdapter where
  varname : String
  value : String
  objectGripAdapter : Option ObjectGripAdapter
deriving Repr, DecidableEq

/-- A DAP `Variable` as built by `VariableAdapter.getVariable`: its
`variablesReference` is the object grip adapter's `variablesProviderId`, or
absent (`none`) when there is no object grip adapter. -/
structure DapVariable where
  name : String
  value : String
  variablesReference : Option Nat
deriving Repr, DecidableEq

/-- `VariableAdapter.getVariable` (variable.ts:19-22). -/
def VariableAdapter.getVariable (v : VariableAdapter) : DapVariable :=
  { name := v.varname
    value := v.value
    variablesReference := v.objectGripAdapter.map (fun a => a.variablesProviderId) }

/-- The grip types recognized by the `switch` in `fromGrip`
(variable.ts:41-74); anything else falls to the `default` branch. -/
def switchedGripTypes : List String :=
  ["null", "undefined", "Infinity", "-Infinity", "NaN", "-0", "longString", "symbol", "object"]

/-- `VariableAdapter.fromGrip` (variable.ts:28-76).  Since the `object` case
calls `threadAdapter.getOrCreateObjectGripAdapter`, the thread's grip state
is passed through explicitly. -/
def fromGrip (varname : String) (grip : Grip) (threadLifetime : Bool)
    (s : ThreadGripState) : VariableAdapter × ThreadGripState :=
  match grip with
  | Grip.boolean b =>
    ({ varname := varname, value := boolToString b, objectGripAdapter := none }, s)
  | Grip.number n =>
    ({ varname := varname, value := numberToString n, objectGripAdapter := none }, s)
  | Grip.stringValue value =>
    ({ varname := varname, value := "\"" ++ value ++ "\"", objectGripAdapter := none }, s)
  | Grip.tagged g =>
    if g.type = "null" ∨ g.type = "undefined" ∨ g.type = "Infinity"
        ∨ g.type = "-Infinity" ∨ g.type = "NaN" ∨ g.type = "-0" then
      ({ varname := varname, value := g.type, objectGripAdapter := none }, s)
    else if g.type = "longString" then
      ({ varname := varname, value := g.initial, objectGripAdapter := none }, s)
    else if g.type = "symbol" then
      ({ varname := varname, value := g.symbolName, objectGripAdapter := none }, s)
    else if g.type = "object" then
      let r := getOrCreateObjectGripAdapter s { actor := g.actor, cls := g.cls } threadLifetime
      ({ varname := varname, value := g.cls, objectGripAdapter := some r.1 }, r.2)
    else
      -- default: log.warn and fall back to displaying the type string
      ({ varname := varname, value := g.type, objectGripAdapter := none }, s)

/-- `ThreadAdapter.variableFromGrip` (thread.ts:281-287): convert a grip if
present, otherwise produce the variable displaying `undefined`. -/
def variableFromGrip (grip : Option Grip) (threadLifetime : Bool)
    (s : ThreadGripState) : VariableAdapter × ThreadGripState :=
  match grip with
  | some g => fromGrip "" g threadLifetime s
  | none => ({ varname := "", value := "undefined", objectGripAdapter := none }, s)

/-! ### Lifetime-extension post-actions (`thread.ts`)

The outcome of each remote `extendLifetime` request is supplied as a
function from the adapter's actor name to whether that request fails. -/

/-- `Promise.all`: succeeds when every promise succeeds, otherwise rejects
with the first rejection. -/
def promiseAll : List (Except String Unit) → Except String Unit
  | [] => Except.ok ()
  | Except.ok () :: rest => promiseAll rest
  | Except.error e :: _ => Except.error e

/-- Outcome of `objectGripAdapter.actor.extendLifetime()`. -/
def extendLifetimeResult (extendFails : String → Bool) (actorName : String) :
    Except String Unit :=
  if extendFails actorName then Except.error "extendLifetime failed" else Except.ok ()

/-- The post-action of `fetchAllStackFrames` (thread.ts:194-203): extend the
lifetime of every object grip adapter of the fetched frames, each request
wrapped in `.catch((err) => undefined)`, then `Promise.all`. -/
def fetchAllStackFramesPostAction (extendFails : String → Bool)
    (objectGripAdapters : List ObjectGripAdapter) : Except String Unit :=
  promiseAll (objectGripAdapters.map (fun a =>
    match extendLifetimeResult extendFails a.actorName with
    | Except.ok u => Except.ok u
    | Except.error _ => Except.ok ()))

/-- The post-action of `fetchVariables` (thread.ts:222-235): when the
variables provider is not thread-lifetime, extend the lifetime of every
associated object grip adapter, each request wrapped in
`.catch((err) => undefined)`, then `Promise.all`. -/
def fetchVariablesPostAction (extendFails : String → Bool) (isThreadLifetime : Bool)
    (variableAdapters : List VariableAdapter) : Except String Unit :=
  let objectGripAdapters := (variableAdapters.map
    (fun v => v.objectGripAdapter)).filterMap id
  if isThreadLifetime then Except.ok ()
  else promiseAll (objectGripAdapters.map (fun a =>
    match extendLifetimeResult extendFails a.actorName with
    | Except.ok u => Except.ok u
    | Except.error _ => Except.ok ()))

/-- The post-action of `evaluate` (thread.ts:250-255): when the result has an
object grip adapter, await `extendLifetime()` on it — with no `catch`, so a
failure rejects the post-action. -/
def evaluatePostAction (extendFails : String → Bool)
    (variableAdapter : VariableAdapter) : Except String Unit :=
  match variableAdapter.objectGripAdapter with
  | some a => extendLifetimeResult extendFails a.actorName
  | none => Except.ok ()

/-- Modelled from the spec: `ThreadCoordinator.evaluate` is not under `src/`;
per §4.4 it performs the remote evaluation, converts the resulting grip with
the supplied converter, and awaits the supplied post-action before the result
is released to the caller, so a post-action failure fails the operation.
The remote result grip is taken as a parameter. -/
def coordinatorEvaluate (remoteResult : Option Grip) (extendFails : String → Bool)
    (s : ThreadGripState) : Except String (VariableAdapter × ThreadGripState) :=
  let r := variableFromGrip remoteResult false s
  match evaluatePostAction extendFails r.1 with
  | Except.ok _ => Except.ok r
  | Except.error e => Except.error e

/-- Modelled from the spec: `ThreadCoordinator.consoleEvaluate` is not under
`src/`; per §4.4 it performs the remote evaluation and applies the supplied
converter (`(grip) => this.variableFromGrip(grip, true)`) to the resulting
grip.  The remote result grip is taken as a parameter.  This is the
`frameActorName === undefined` branch of `ThreadAdapter.evaluate`
(thread.ts:258-262), followed by `getVariable` (thread.ts:265). -/
def threadEvaluateConsole (remoteResult : Option Grip) (s : ThreadGripState) :
    DapVariable × ThreadGripState :=
  let r := variableFromGrip remoteResult true s
  (r.1.getVariable, r.2)

/-! ### Connection / actor registry (`DebugConnection`) -/

/-- An `ActorProxy`: its remote-assigned `name` plus an identity tag
modelling JavaScript object identity. -/
structure ActorProxy where
  name : String
  id : Nat
deriving Repr, DecidableEq

/-- The connection's `actors` map (`Map<string, ActorProxy>`). -/
abbrev ActorRegistry : Type := List (String × ActorProxy)

/-- `DebugConnection.register` (part_000:45-47): `Map.set` — replace the
entry under the proxy's name if present, otherwise insert it. -/
def registerActor (actors : ActorRegistry) (actor : ActorProxy) : ActorRegistry :=
  match lookupByName actors actor.name with
  | some _ => actors.map (fun p => if p.1 = actor.name then (p.1, actor) else p)
  | none => actors ++ [(actor.name, actor)]

/-- `DebugConnection.unregister` (part_000:49-51): `Map.delete` by the
proxy's name. -/
def unregisterActor (actors : ActorRegistry) (actor : ActorProxy) : ActorRegistry :=
  deleteName actors actor.name

/-- An inbound protocol message; `fromActor` is its `from` field. -/
structure ProtocolMessage where
  fromActor : String
  body : String
deriving Repr, DecidableEq

/-- What the connection's message handler does with an inbound message. -/
inductive DispatchResult where
  | dispatched (actor : ActorProxy) (message : ProtocolMessage)
  | unroutable (loggedError : String)
deriving Repr, DecidableEq

/-- The inbound-message handler installed by the `DebugConnection`
constructor (part_000:22-31): if the `from` field names a registered actor,
dispatch the message to that proxy's `receiveResponse`; otherwise log
`Unknown actor` and drop the message. -/
def handleInboundMessage (actors : ActorRegistry) (msg : ProtocolMessage) :
    DispatchResult :=
  match lookupByName actors msg.fromActor with
  | some actor => DispatchResult.dispatched actor msg
  | none => DispatchResult.unroutable ("Unknown actor: " ++ msg.fromActor)

/-- `DebugConnection.getOrCreate` (part_000:53-59): return the registered
proxy when the name is present, otherwise return the factory's result.  The
factory is passed the registry and may itself modify it (e.g. a proxy
constructor calling `register`); `getOrCreate` itself performs no insertion. -/
def getOrCreate (actors : ActorRegistry) (actorName : String)
    (createActor : ActorRegistry → ActorProxy × ActorRegistry) :
    ActorProxy × ActorRegistry :=
  match lookupByName actors actorName with
  | some actor => (actor, actors)
  | none => createActor actors

/-- A register or unregister call on the connection. -/
inductive RegistryOp where
  | registerOp (actor : ActorProxy)
  | unregisterOp (actor : ActorProxy)
deriving Repr, DecidableEq

/-- Apply one registry operation. -/
def applyRegistryOp (actors : ActorRegistry) : RegistryOp → ActorRegistry
  | RegistryOp.registerOp actor => registerActor actors actor
  | RegistryOp.unregisterOp actor => unregisterActor actors actor

/-- The registry reached from the empty registry of a fresh
`DebugConnection` by a sequence of register/unregister calls. -/
def applyRegistryOps (ops : List RegistryOp) : ActorRegistry :=
  ops.foldl applyRegistryOp ([] : ActorRegistry)

/-! ### Pause coordinator (modelled from the spec)

`ThreadAdapter.interrupt` (thread.ts:145-147) delegates to
`ThreadCoordinator.interrupt`, whose source is not part of this repository
snapshot; the model below follows the spec's description. -/

/-- A message sent to the remote peer for a thread's pause/resume traffic. -/
inductive WireMessage where
  | interruptMessage
  | resumeMessage
deriving Repr, DecidableEq

/-- Modelled from the spec: the per-thread interrupt/resume queue of the
Pause Coordinator and Thread Coordinator (`ThreadCoordinator` /
`ThreadPauseCoordinator`, not under `src/`).  Per §4.3 and the
PendingPauseOperation description, at most one interrupt and one resume may
be in flight per thread; `pendingInterruptWaiters`/`pendingResumeWaiters`
hold the callers awaiting the single in-flight operation, `sentMessages` the
wire traffic, `resolvedCallers` the callers whose promise has resolved. -/
structure PauseCoordinatorState where
  pendingInterruptWaiters : Option (List Nat)
  pendingResumeWaiters : Option (List Nat)
  sentMessages : List WireMessage
  resolvedCallers : List Nat
deriving Repr, DecidableEq

/-- The coordinator state of a freshly attached thread. -/
def initialPauseCoordinatorState : PauseCoordinatorState :=
  { pendingInterruptWaiters := none
    pendingResumeWaiters := none
    sentMessages := []
    resolvedCallers := [] }

/-- Modelled from the spec: `requestInterrupt` (§4.3) — if an interrupt is
already in flight, the caller awaits that same operation and no duplicate
message is sent; otherwise the interrupt message is issued and the caller
awaits it. -/
def requestInterrupt (s : PauseCoordinatorState) (caller : Nat) :
    PauseCoordinatorState :=
  match s.pendingInterruptWaiters with
  | some waiters =>
      { s with pendingInterruptWaiters := some (waiters ++ [caller]) }
  | none =>
      { s with
        pendingInterruptWaiters := some [caller]
        sentMessages := s.sentMessages ++ [WireMessage.interruptMessage] }

/-- Modelled from the spec: `notifyInterrupted` (§4.3) — the remote peer
confirmed the in-flight interrupt; every queued waiter resolves. -/
def notifyInterrupted (s : PauseCoordinatorState) : PauseCoordinatorState :=
  match s.pendingInterruptWaiters with
  | some waiters =>
      { s with
        pendingInterruptWaiters := none
        resolvedCallers := s.resolvedCallers ++ waiters }
  | none => s

/-- Modelled from the spec: `requestResume` (§4.3) — symmetric to
`requestInterrupt`: if a resume is already pending, the caller waits on that
same operation rather than double-issuing; otherwise the resume message is
issued and the caller awaits it. -/
def requestResume (s : PauseCoordinatorState) (caller : Nat) :
    PauseCoordinatorState :=
  match s.pendingResumeWaiters with
  | some waiters =>
      { s with pendingResumeWaiters := some (waiters ++ [caller]) }
  | none =>
      { s with
        pendingResumeWaiters := some [caller]
        sentMessages := s.sentMessages ++ [WireMessage.resumeMessage] }

/-- Modelled from the spec: the remote peer confirmed the in-flight resume;
every queued waiter resolves. -/
def notifyResumed (s : PauseCoordinatorState) : PauseCoordinatorState :=
  match s.pendingResumeWaiters with
  | some waiters =>
      { s with
        pendingResumeWaiters := none
        resolvedCallers := s.resolvedCallers ++ waiters }
  | none => s

/-- The number of interrupt operations in flight (0 or 1 by construction of
the state). -/
def inFlightInterrupts (s : PauseCoordinatorState) : Nat :=
  match s.pendingInterruptWaiters with
  | some _ => 1
  | none => 0

/-- The number of resume operations in flight (0 or 1 by construction of
the state). -/
def inFlightResumes (s : PauseCoordinatorState) : Nat :=
  match s.pendingResumeWaiters with
  | some _ => 1
  | none => 0

/-- The number of interrupt messages on the wire. -/
def sentInterruptCount (s : PauseCoordinatorState) : Nat :=
  (s.sentMessages.filter (fun m => m = WireMessage.interruptMessage)).length

/-- The number of resume messages on the wire. -/
def sentResumeCount (s : PauseCoordinatorState) : Nat :=
  (s.sentMessages.filter (fun m => m = WireMessage.resumeMessage)).length

/-! ### Concrete scenarios used as witnesses and counterexamples -/

/-- A sample object grip. -/
def sampleGrip : ObjectGrip := { actor := "obj1", cls := "Object" }

/-- The grip state after requesting `sampleGrip` with `threadLifetime = false`
on a fresh thread. -/
def stateAfterPauseLifetimeRequest : ThreadGripState :=
  (getOrCreateObjectGripAdapter initialThreadGripState sampleGrip false).2

/-- A grip state holding one pause-lifetime adapter (actor `"p1"`) and one
thread-lifetime adapter (actor `"t1"`). -/
def mixedLifetimeState : ThreadGripState :=
  (getOrCreateObjectGripAdapter
    (getOrCreateObjectGripAdapter initialThreadGripState
      { actor := "p1", cls := "Object" } false).2
    { actor := "t1", cls := "Window" } true).2

/-- A sample object grip adapter (as created first on a fresh thread). -/
def sampleAdapter : ObjectGripAdapter :=
  { grip := sampleGrip, threadLifetime := false, disposed := false, id := 0 }

/-- An `extendLifetime` outcome where every request fails. -/
def allExtendRequestsFail : String → Bool := fun _ => true

/-- A sample object-typed grip whose evaluation result refers to actor
`"obj1"`. -/
def sampleObjectTaggedGrip : TaggedGrip :=
  { type := "object", cls := "Object", actor := "obj1", initial := "", symbolName := "" }

/-- A sample tagged grip whose `type` is not one of the recognized subtypes. -/
def unrecognizedTaggedGrip : TaggedGrip :=
  { type := "mapEntry", cls := "", actor := "", initial := "", symbolName := "" }

/-- A sample actor proxy named `"tab1"`. -/
def sampleProxy : ActorProxy := { name := "tab1", id := 0 }

/-- A second sample actor proxy named `"thread7"`. -/
def otherProxy : ActorProxy := { name := "thread7", id := 1 }

/-- A factory for `getOrCreate` that registers the proxy it creates, as the
`ActorProxy` constructors do. -/
def sampleFactory : ActorRegistry → ActorProxy × ActorRegistry :=
  fun actors => ({ name := "thread2", id := 7 }, registerActor actors { name := "thread2", id := 7 })

/-! ### Lemmas about the association-list operations -/

theorem lookupByName_eq_none_iff {α : Type} (idx : List (String × α)) (n : String) :
    lookupByName idx n = none ↔ n ∉ idx.map Prod.fst := by
  induction idx with
  | nil => simp [lookupByName]
  | cons p rest ih =>
    by_cases h : p.1 = n
    · simp [lookupByName, h]
    · simp [lookupByName, h, ih, Ne.symm h]

theorem lookupByName_append_of_eq_none {α : Type} (idx idx2 : List (String × α)) (n : String)
    (h : lookupByName idx n = none) :
    lookupByName (idx ++ idx2) n = lookupByName idx2 n := by
  induction idx with
  | nil => rfl
  | cons p rest ih =>
    by_cases hp : p.1 = n
    · simp [lookupByName, hp] at h
    · simp only [lookupByName, hp, if_false] at h
      simp only [List.cons_append, lookupByName, hp, if_false]
      exact ih h

theorem lookupByName_append_of_eq_some {α : Type} (idx idx2 : List (String × α)) (n : String)
    (a : α) (h : lookupByName idx n = some a) :
    lookupByName (idx ++ idx2) n = some a := by
  induction idx with
  | nil => simp [lookupByName] at h
  | cons p rest ih =>
    by_cases hp : p.1 = n
    · simp only [lookupByName, hp, if_true] at h
      simp only [List.cons_append, lookupByName, hp, if_true]
      exact h
    · simp only [lookupByName, hp, if_false] at h
      simp only [List.cons_append, lookupByName, hp, if_false]
      exact ih h

theorem lookupByName_deleteName {α : Type} (idx : List (String × α)) (m n : String) :
    lookupByName (deleteName idx m) n = if n = m then none else lookupByName idx n := by
  induction idx with
  | nil => simp [deleteName, lookupByName]
  | cons p rest ih =>
    by_cases hm : p.1 = m
    · rw [show deleteName (p :: rest) m = deleteName rest m from if_pos hm]
      rw [ih]
      by_cases hn : n = m
      · simp [hn]
      · have hpn : ¬ p.1 = n := by rw [hm]; exact fun hc => hn hc.symm
        simp [hn, lookupByName, hpn]
    · rw [show deleteName (p :: rest) m = p :: deleteName rest m from if_neg hm]
      by_cases hpn : p.1 = n
      · have hn : ¬ n = m := fun hc => hm (hpn.trans hc)
        simp [lookupByName, hpn, hn]
      · simp [lookupByName, hpn, ih]

theorem lookupByName_deleteNames {α : Type} (names : List String)
    (idx : List (String × α)) (n : String) :
    lookupByName (deleteNames idx names) n =
      if n ∈ names then none else lookupByName idx n := by
  induction names generalizing idx with
  | nil => simp [deleteNames]
  | cons m rest ih =>
    simp only [deleteNames]
    rw [ih, lookupByName_deleteName]
    by_cases hr : n ∈ rest
    · simp [hr]
    · by_cases hm : n = m
      · simp [hr, hm]
      · simp [hr, hm]

theorem deleteName_sublist {α : Type} (idx : List (String × α)) (m : String) :
    (deleteName idx m).Sublist idx := by
  induction idx with
  | nil => exact List.Sublist.refl []
  | cons p rest ih =>
    by_cases hm : p.1 = m
    · rw [show deleteName (p :: rest) m = deleteName rest m from if_pos hm]
      exact ih.trans (List.sublist_cons_self p rest)
    · rw [show deleteName (p :: rest) m = p :: deleteName rest m from if_neg hm]
      exact ih.cons₂ p

theorem deleteNames_sublist {α : Type} (names : List String) (idx : List (String × α)) :
    (deleteNames idx names).Sublist idx := by
  induction names generalizing idx with
  | nil => exact List.Sublist.refl idx
  | cons m rest ih =>
    simp only [deleteNames]
    exact (ih (deleteName idx m)).trans (deleteName_sublist idx m)

/-! ### Lemmas about the grip-lifetime state -/

theorem disposePauseLifetimeAdapters_fst (s : ThreadGripState) (fails : Bool) :
    (disposePauseLifetimeAdapters s fails).1 =
      { s with
        objectGripAdaptersByActorName :=
          deleteNames s.objectGripAdaptersByActorName
            (s.pauseLifetimeObjects.map (fun a => a.actorName))
        pauseLifetimeObjects := []
        scopes := []
        frames := [] } := rfl

theorem disposePauseLifetimeAdapters_result (s : ThreadGripState) (fails : Bool) :
    (disposePauseLifetimeAdapters s fails).2.2 = Except.ok () := by
  unfold disposePauseLifetimeAdapters
  cases fails <;> dsimp only <;> split <;> rfl

theorem getOrCreate_of_lookup_some (s : ThreadGripState) (g : ObjectGrip)
    (tl : Bool) (a : ObjectGripAdapter)
    (h : lookupByName s.objectGripAdaptersByActorName g.actor = some a) :
    getOrCreateObjectGripAdapter s g tl = (a, s) := by
  unfold getOrCreateObjectGripAdapter
  rw [h]

theorem getOrCreate_of_lookup_none (s : ThreadGripState) (g : ObjectGrip) (tl : Bool)
    (h : lookupByName s.objectGripAdaptersByActorName g.actor = none) :
    getOrCreateObjectGripAdapter s g tl =
      ({ grip := g, threadLifetime := tl, disposed := false, id := s.nextAdapterId },
       { s with
         objectGripAdaptersByActorName := s.objectGripAdaptersByActorName
           ++ [(g.actor,
                { grip := g, threadLifetime := tl, disposed := false, id := s.nextAdapterId })]
         pauseLifetimeObjects :=
           if tl then s.pauseLifetimeObjects
           else s.pauseLifetimeObjects
             ++ [{ grip := g, threadLifetime := tl, disposed := false, id := s.nextAdapterId }]
         nextAdapterId := s.nextAdapterId + 1 }) := by
  unfold getOrCreateObjectGripAdapter
  rw [h]

theorem lookup_after_getOrCreate (s : ThreadGripState) (g : ObjectGrip) (tl : Bool) :
    lookupByName (getOrCreateObjectGripAdapter s g tl).2.objectGripAdaptersByActorName g.actor
      = some (getOrCreateObjectGripAdapter s g tl).1 := by
  cases h : lookupByName s.objectGripAdaptersByActorName g.actor with
  | some a => rw [getOrCreate_of_lookup_some s g tl a h]; exact h
  | none =>
    rw [getOrCreate_of_lookup_none s g tl h]
    dsimp only
    rw [lookupByName_append_of_eq_none _ _ _ h]
    simp [lookupByName]

theorem WFGripState_getOrCreate (s : ThreadGripState) (g : ObjectGrip) (tl : Bool)
    (hWF : WFGripState s) :
    WFGripState (getOrCreateObjectGripAdapter s g tl).2 := by
  obtain ⟨hPause, hNodup⟩ := hWF
  cases h : lookupByName s.objectGripAdaptersByActorName g.actor with
  | some a => rw [getOrCreate_of_lookup_some s g tl a h]; exact ⟨hPause, hNodup⟩
  | none =>
    rw [getOrCreate_of_lookup_none s g tl h]
    have hnotin : g.actor ∉ s.objectGripAdaptersByActorName.map Prod.fst :=
      (lookupByName_eq_none_iff _ _).mp h
    constructor
    · intro a ha
      dsimp only at ha
      by_cases htl : tl = true
      · rw [htl, if_pos rfl] at ha
        obtain ⟨hl, hf⟩ := hPause a ha
        exact ⟨lookupByName_append_of_eq_some _ _ _ _ hl, hf⟩
      · rw [if_neg htl] at ha
        rcases List.mem_append.mp ha with hmem | hnew
        · obtain ⟨hl, hf⟩ := hPause a hmem
          exact ⟨lookupByName_append_of_eq_some _ _ _ _ hl, hf⟩
        · obtain rfl := List.mem_singleton.mp hnew
          have htlf : tl = false := by
            cases tl
            · rfl
            · exact absurd rfl htl
          refine ⟨?_, htlf⟩
          simp only [ObjectGripAdapter.actorName]
          rw [lookupByName_append_of_eq_none _ _ _ h]
          simp [lookupByName]
    · dsimp only
      rw [List.map_append, List.nodup_append]
      refine ⟨hNodup, List.nodup_singleton _, ?_⟩
      intro x hx hx2
      simp only [List.map_cons, List.map_nil, List.mem_singleton] at hx2
      subst hx2
      exact hnotin hx

theorem WFGripState_dispose (s : ThreadGripState) (fails : Bool)
    (hWF : WFGripState s) :
    WFGripState (disposePauseLifetimeAdapters s fails).1 := by
  obtain ⟨_, hNodup⟩ := hWF
  rw [disposePauseLifetimeAdapters_fst]
  constructor
  · intro a ha
    simp at ha
  · have hsub := deleteNames_sublist
      (s.pauseLifetimeObjects.map (fun a => a.actorName)) s.objectGripAdaptersByActorName
    exact (hsub.map Prod.fst).nodup hNodup

/-! ### Claim C1 -/

/-- Claim C1 as stated is false: requesting an already-indexed grip with
`threadLifetime = true` after a prior `threadLifetime = false` request does
not upgrade the adapter — it stays pause-lifetime (`threadLifetime = false`),
the state is unchanged, and on the next resume it is removed from the index
and its actor is named in the `releaseMany` request. -/
theorem C1_no_upgrade_counterexample :
    (getOrCreateObjectGripAdapter stateAfterPauseLifetimeRequest sampleGrip true).1.threadLifetime
      = false
    ∧ (getOrCreateObjectGripAdapter stateAfterPauseLifetimeRequest sampleGrip true).2
      = stateAfterPauseLifetimeRequest
    ∧ lookupByName
        (disposePauseLifetimeAdapters
          (getOrCreateObjectGripAdapter stateAfterPauseLifetimeRequest sampleGrip true).2
          false).1.objectGripAdaptersByActorName "obj1" = none
    ∧ GripEvent.releaseMany ["obj1"] ∈
        (disposePauseLifetimeAdapters
          (getOrCreateObjectGripAdapter stateAfterPauseLifetimeRequest sampleGrip true).2
          false).2.1 := by
  decide

/-- Claim C1 (amended): a `getOrCreateObjectGripAdapter` call for an actor
name that is already indexed returns the existing adapter unchanged and
leaves the state untouched, whatever `threadLifetime` flag is passed: the
lifetime class is fixed at creation, so a later `threadLifetime = true` call
never upgrades a pause-lifetime adapter (it is still released on the next
resume) and a later `threadLifetime = false` call never downgrades a
thread-lifetime one. -/
theorem C1_lifetime_fixed_at_creation (s : ThreadGripState) (g : ObjectGrip)
    (tl : Bool) (a : ObjectGripAdapter)
    (h : lookupByName s.objectGripAdaptersByActorName g.actor = some a) :
    getOrCreateObjectGripAdapter s g tl = (a, s) :=
  getOrCreate_of_lookup_some s g tl a h

/-- Witness for `C1_lifetime_fixed_at_creation` at a concrete state. -/
theorem C1_lifetime_fixed_at_creation_witness :
    getOrCreateObjectGripAdapter stateAfterPauseLifetimeRequest sampleGrip true
      = (sampleAdapter, stateAfterPauseLifetimeRequest) :=
  C1_lifetime_fixed_at_creation stateAfterPauseLifetimeRequest sampleGrip true
    sampleAdapter (by decide)

/-! ### Claim C2 -/

/-- Claim C2: two `getOrCreateObjectGripAdapter` calls whose grips carry the
same remote actor name (with no intervening disposal) return the identical
adapter, the second call leaves the state unchanged, and the resulting index
still holds at most one adapter per actor name (its key list stays without
duplicates, as part of well-formedness). -/
theorem C2_grip_deduplication (s : ThreadGripState) (g g2 : ObjectGrip)
    (tl tl2 : Bool) (hWF : WFGripState s) (hsame : g2.actor = g.actor) :
    (getOrCreateObjectGripAdapter
        (getOrCreateObjectGripAdapter s g tl).2 g2 tl2).1
      = (getOrCreateObjectGripAdapter s g tl).1
    ∧ (getOrCreateObjectGripAdapter
        (getOrCreateObjectGripAdapter s g tl).2 g2 tl2).2
      = (getOrCreateObjectGripAdapter s g tl).2
    ∧ WFGripState (getOrCreateObjectGripAdapter
        (getOrCreateObjectGripAdapter s g tl).2 g2 tl2).2 := by
  have hl : lookupByName
      (getOrCreateObjectGripAdapter s g tl).2.objectGripAdaptersByActorName g2.actor
      = some (getOrCreateObjectGripAdapter s g tl).1 := by
    rw [hsame]; exact lookup_after_getOrCreate s g tl
  have hsecond := getOrCreate_of_lookup_some _ g2 tl2 _ hl
  refine ⟨by rw [hsecond], by rw [hsecond], ?_⟩
  rw [hsecond]
  exact WFGripState_getOrCreate s g tl ⟨hWF.1, hWF.2⟩

/-- Witness for `C2_grip_deduplication` on a fresh thread. -/
theorem C2_grip_deduplication_witness :
    (getOrCreateObjectGripAdapter
        (getOrCreateObjectGripAdapter initialThreadGripState sampleGrip false).2
        sampleGrip true).1
      = (getOrCreateObjectGripAdapter initialThreadGripState sampleGrip false).1
    ∧ (getOrCreateObjectGripAdapter
        (getOrCreateObjectGripAdapter initialThreadGripState sampleGrip false).2
        sampleGrip true).2
      = (getOrCreateObjectGripAdapter initialThreadGripState sampleGrip false).2
    ∧ WFGripState (getOrCreateObjectGripAdapter
        (getOrCreateObjectGripAdapter initialThreadGripState sampleGrip false).2
        sampleGrip true).2 :=
  C2_grip_deduplication initialThreadGripState sampleGrip sampleGrip false true
    (by decide) rfl

/-! ### Lemmas about the dispose trace -/

theorem disposePauseLifetimeAdapters_events (s : ThreadGripState) (fails : Bool) :
    (disposePauseLifetimeAdapters s fails).2.1 =
      (s.pauseLifetimeObjects.flatMap (fun a =>
        [GripEvent.disposeAdapter a.actorName, GripEvent.removeFromIndex a.actorName]))
      ++ [GripEvent.clearReleaseList]
      ++ (s.scopes.map GripEvent.disposeScope) ++ [GripEvent.clearScopes]
      ++ (s.frames.map GripEvent.disposeFrame) ++ [GripEvent.clearFrames]
      ++ (if (s.pauseLifetimeObjects.map (fun a => a.actorName)).length > 0
          then [GripEvent.releaseMany (s.pauseLifetimeObjects.map (fun a => a.actorName))]
          else []) := rfl

theorem filter_isReleaseMany_disposeEvents (l : List ObjectGripAdapter) :
    ((l.flatMap (fun a =>
        [GripEvent.disposeAdapter a.actorName, GripEvent.removeFromIndex a.actorName])).filter
      isReleaseManyEvent) = [] := by
  induction l with
  | nil => rfl
  | cons a rest ih =>
    simp only [List.flatMap_cons, List.filter_append, ih, List.append_nil]
    rfl

theorem filter_isReleaseMany_scopes (l : List Nat) :
    ((l.map GripEvent.disposeScope).filter isReleaseManyEvent) = [] := by
  induction l with
  | nil => rfl
  | cons a rest ih =>
    simp only [List.map_cons, List.filter_cons, ih]
    rfl

theorem filter_isReleaseMany_frames (l : List Nat) :
    ((l.map GripEvent.disposeFrame).filter isReleaseManyEvent) = [] := by
  induction l with
  | nil => rfl
  | cons a rest ih =>
    simp only [List.map_cons, List.filter_cons, ih]
    rfl

theorem mem_disposeEvents (l : List ObjectGripAdapter) (a : ObjectGripAdapter)
    (ha : a ∈ l) :
    GripEvent.disposeAdapter a.actorName ∈
      (l.flatMap (fun b =>
        [GripEvent.disposeAdapter b.actorName, GripEvent.removeFromIndex b.actorName]))
    ∧ GripEvent.removeFromIndex a.actorName ∈
      (l.flatMap (fun b =>
        [GripEvent.disposeAdapter b.actorName, GripEvent.removeFromIndex b.actorName])) := by
  induction l with
  | nil => cases ha
  | cons b rest ih =>
    rcases List.mem_cons.mp ha with heq | hmem
    · subst heq
      constructor <;> simp [List.flatMap_cons]
    · obtain ⟨h1, h2⟩ := ih hmem
      constructor <;> simp [List.flatMap_cons, h1, h2]

/-! ### Claim C3 -/

/-- Claim C3: after `disposePauseLifetimeAdapters` runs (on every transition
of the thread into Running), the set of pause-lifetime grip adapters is
empty — each of them was disposed and its entry removed from the name
index, and the release list is cleared — while every thread-lifetime grip
adapter remains in the index unchanged. -/
theorem C3_pause_grips_cleared_thread_grips_survive (s : ThreadGripState)
    (fails : Bool) (hWF : WFGripState s) :
    (disposePauseLifetimeAdapters s fails).1.pauseLifetimeObjects = []
    ∧ (∀ a ∈ s.pauseLifetimeObjects,
        lookupByName
          (disposePauseLifetimeAdapters s fails).1.objectGripAdaptersByActorName
          a.actorName = none
        ∧ GripEvent.disposeAdapter a.actorName ∈ (disposePauseLifetimeAdapters s fails).2.1)
    ∧ (∀ n : String, ∀ a : ObjectGripAdapter,
        lookupByName s.objectGripAdaptersByActorName n = some a
        → a.threadLifetime = true
        → lookupByName
            (disposePauseLifetimeAdapters s fails).1.objectGripAdaptersByActorName n
            = some a) := by
  obtain ⟨hPause, _⟩ := hWF
  refine ⟨by rw [disposePauseLifetimeAdapters_fst], ?_, ?_⟩
  · intro a ha
    constructor
    · rw [disposePauseLifetimeAdapters_fst]
      dsimp only
      rw [lookupByName_deleteNames]
      rw [if_pos (List.mem_map_of_mem _ ha)]
    · rw [disposePauseLifetimeAdapters_events]
      exact List.mem_append_left _ (List.mem_append_left _ (List.mem_append_left _
        (List.mem_append_left _ (List.mem_append_left _ (List.mem_append_left _
          (mem_disposeEvents _ a ha).1)))))
  · intro n a hl htl
    rw [disposePauseLifetimeAdapters_fst]
    dsimp only
    rw [lookupByName_deleteNames]
    rw [if_neg ?_]
    · exact hl
    · intro hmem
      obtain ⟨b, hb, hbn⟩ := List.mem_map.mp hmem
      obtain ⟨hlb, hfb⟩ := hPause b hb
      rw [hbn] at hlb
      rw [hl] at hlb
      obtain rfl := Option.some.inj hlb
      rw [htl] at hfb
      exact Bool.noConfusion hfb

/-- Witness for `C3_pause_grips_cleared_thread_grips_survive` on a state
holding one pause-lifetime and one thread-lifetime adapter. -/
theorem C3_pause_grips_cleared_thread_grips_survive_witness :
    (disposePauseLifetimeAdapters mixedLifetimeState false).1.pauseLifetimeObjects = []
    ∧ (∀ a ∈ mixedLifetimeState.pauseLifetimeObjects,
        lookupByName
          (disposePauseLifetimeAdapters mixedLifetimeState false).1.objectGripAdaptersByActorName
          a.actorName = none
        ∧ GripEvent.disposeAdapter a.actorName
            ∈ (disposePauseLifetimeAdapters mixedLifetimeState false).2.1)
    ∧ (∀ n : String, ∀ a : ObjectGripAdapter,
        lookupByName mixedLifetimeState.objectGripAdaptersByActorName n = some a
        → a.threadLifetime = true
        → lookupByName
            (disposePauseLifetimeAdapters mixedLifetimeState false).1.objectGripAdaptersByActorName n
            = some a) :=
  C3_pause_grips_cleared_thread_grips_survive mixedLifetimeState false (by decide)

/-! ### Claim C4 -/

/-- Claim C4's "exactly one bulk release-many request per invocation" fails
when there is no pause-lifetime adapter: on a fresh thread,
`disposePauseLifetimeAdapters` issues no `releaseMany` request at all (its
trace holds no release event), while the call still succeeds. -/
theorem C4_no_release_request_when_empty_counterexample :
    ((disposePauseLifetimeAdapters initialThreadGripState true).2.1.filter
      isReleaseManyEvent) = []
    ∧ (disposePauseLifetimeAdapters initialThreadGripState true).2.2 = Except.ok () := by
  decide

/-- Claim C4 (amended): `disposePauseLifetimeAdapters` disposes every
pause-lifetime adapter and removes it from the name index, clears the
release list, clears the cached scopes and frames, and then — as the last
operation, and only when the collected name list is nonempty — issues at
most one bulk `releaseMany` request naming exactly the collected
pause-lifetime actor names; a failure of that release request never
propagates to the caller. -/
theorem C4_dispose_order_and_bulk_release (s : ThreadGripState) (fails : Bool) :
    ((disposePauseLifetimeAdapters s fails).2.1.filter isReleaseManyEvent
      = if s.pauseLifetimeObjects = [] then []
        else [GripEvent.releaseMany (s.pauseLifetimeObjects.map (fun a => a.actorName))])
    ∧ (s.pauseLifetimeObjects ≠ [] →
        (disposePauseLifetimeAdapters s fails).2.1.getLast?
          = some (GripEvent.releaseMany (s.pauseLifetimeObjects.map (fun a => a.actorName))))
    ∧ (∀ a ∈ s.pauseLifetimeObjects,
        GripEvent.disposeAdapter a.actorName ∈ (disposePauseLifetimeAdapters s fails).2.1
        ∧ GripEvent.removeFromIndex a.actorName ∈ (disposePauseLifetimeAdapters s fails).2.1)
    ∧ (disposePauseLifetimeAdapters s fails).1.pauseLifetimeObjects = []
    ∧ (disposePauseLifetimeAdapters s fails).1.scopes = []
    ∧ (disposePauseLifetimeAdapters s fails).1.frames = []
    ∧ (disposePauseLifetimeAdapters s fails).2.2 = Except.ok () := by
  refine ⟨?_, ?_, ?_, by rw [disposePauseLifetimeAdapters_fst],
    by rw [disposePauseLifetimeAdapters_fst], by rw [disposePauseLifetimeAdapters_fst],
    disposePauseLifetimeAdapters_result s fails⟩
  · rw [disposePauseLifetimeAdapters_events]
    simp only [List.filter_append, filter_isReleaseMany_disposeEvents,
      filter_isReleaseMany_scopes, filter_isReleaseMany_frames,
      List.nil_append, List.append_nil]
    cases hp : s.pauseLifetimeObjects with
    | nil => rfl
    | cons a rest =>
      simp only [List.map_cons, List.length_cons]
      rw [if_pos (Nat.succ_pos _), if_neg (by exact List.cons_ne_nil a rest)]
      rfl
  · intro hne
    rw [disposePauseLifetimeAdapters_events]
    have hlen : (s.pauseLifetimeObjects.map (fun a => a.actorName)).length > 0 := by
      rw [List.length_map]
      exact List.length_pos.mpr hne
    rw [if_pos hlen]
    rw [List.getLast?_concat]
  · intro a ha
    rw [disposePauseLifetimeAdapters_events]
    obtain ⟨h1, h2⟩ := mem_disposeEvents s.pauseLifetimeObjects a ha
    constructor
    · exact List.mem_append_left _ (List.mem_append_left _ (List.mem_append_left _
        (List.mem_append_left _ (List.mem_append_left _ (List.mem_append_left _ h1)))))
    · exact List.mem_append_left _ (List.mem_append_left _ (List.mem_append_left _
        (List.mem_append_left _ (List.mem_append_left _ (List.mem_append_left _ h2)))))

/-- Witness for `C4_dispose_order_and_bulk_release` on a state holding one
pause-lifetime and one thread-lifetime adapter, with the remote release
request failing. -/
theorem C4_dispose_order_and_bulk_release_witness :
    ((disposePauseLifetimeAdapters mixedLifetimeState true).2.1.filter isReleaseManyEvent
      = if mixedLifetimeState.pauseLifetimeObjects = [] then []
        else [GripEvent.releaseMany
          (mixedLifetimeState.pauseLifetimeObjects.map (fun a => a.actorName))])
    ∧ (mixedLifetimeState.pauseLifetimeObjects ≠ [] →
        (disposePauseLifetimeAdapters mixedLifetimeState true).2.1.getLast?
          = some (GripEvent.releaseMany
              (mixedLifetimeState.pauseLifetimeObjects.map (fun a => a.actorName))))
    ∧ (∀ a ∈ mixedLifetimeState.pauseLifetimeObjects,
        GripEvent.disposeAdapter a.actorName
          ∈ (disposePauseLifetimeAdapters mixedLifetimeState true).2.1
        ∧ GripEvent.removeFromIndex a.actorName
          ∈ (disposePauseLifetimeAdapters mixedLifetimeState true).2.1)
    ∧ (disposePauseLifetimeAdapters mixedLifetimeState true).1.pauseLifetimeObjects = []
    ∧ (disposePauseLifetimeAdapters mixedLifetimeState true).1.scopes = []
    ∧ (disposePauseLifetimeAdapters mixedLifetimeState true).1.frames = []
    ∧ (disposePauseLifetimeAdapters mixedLifetimeState true).2.2 = Except.ok () :=
  C4_dispose_order_and_bulk_release mixedLifetimeState true

/-! ### Claim C5 -/

theorem promiseAll_of_all_ok (l : List (Except String Unit))
    (h : ∀ r ∈ l, r = Except.ok ()) : promiseAll l = Except.ok () := by
  induction l with
  | nil => rfl
  | cons r rest ih =>
    have hr := h r (List.mem_cons_self r rest)
    subst hr
    exact ih (fun x hx => h x (List.mem_cons_of_mem _ hx))

theorem caught_extend_ok (f : String → Bool) (a : ObjectGripAdapter) :
    (match extendLifetimeResult f a.actorName with
      | Except.ok u => Except.ok u
      | Except.error _ => Except.ok ()) = (Except.ok () : Except String Unit) := by
  unfold extendLifetimeResult
  cases hf : f a.actorName <;> simp [hf]

/-- Claim C5 as stated is false at the `evaluate` site: its post-action
awaits `extendLifetime()` with no catch (thread.ts:253), so a failing
request fails the evaluate operation to its caller (through the
spec-modelled coordinator), while the post-actions of `fetchAllStackFrames`
and `fetchVariables` swallow the same failure. -/
theorem C5_evaluate_failure_propagates_counterexample :
    coordinatorEvaluate (some (Grip.tagged sampleObjectTaggedGrip)) allExtendRequestsFail
        initialThreadGripState = Except.error "extendLifetime failed"
    ∧ fetchAllStackFramesPostAction allExtendRequestsFail [sampleAdapter] = Except.ok ()
    ∧ fetchVariablesPostAction allExtendRequestsFail false
        [{ varname := "x", value := "Object", objectGripAdapter := some sampleAdapter }]
        = Except.ok () := by
  decide

/-- Claim C5 (amended): the post-actions of `fetchAllStackFrames` and
`fetchVariables` wrap every `extendLifetime` request in a catch, so a
failure of any such request is swallowed and never propagates to the
operation's caller; the post-action of `evaluate` has no such catch and a
failure there is not swallowed. -/
theorem C5_extend_lifetime_swallowed (extendFails : String → Bool)
    (objectGripAdapters : List ObjectGripAdapter) (isThreadLifetime : Bool)
    (variableAdapters : List VariableAdapter) :
    fetchAllStackFramesPostAction extendFails objectGripAdapters = Except.ok ()
    ∧ fetchVariablesPostAction extendFails isThreadLifetime variableAdapters
        = Except.ok () := by
  constructor
  · unfold fetchAllStackFramesPostAction
    apply promiseAll_of_all_ok
    intro r hr
    obtain ⟨a, _, rfl⟩ := List.mem_map.mp hr
    exact caught_extend_ok extendFails a
  · unfold fetchVariablesPostAction
    cases isThreadLifetime with
    | true => rfl
    | false =>
      dsimp only
      apply promiseAll_of_all_ok
      intro r hr
      obtain ⟨a, _, rfl⟩ := List.mem_map.mp hr
      exact caught_extend_ok extendFails a

/-! ### Claim C6 -/

theorem registerActor_keys_nodup (actors : ActorRegistry) (actor : ActorProxy)
    (h : (actors.map Prod.fst).Nodup) :
    ((registerActor actors actor).map Prod.fst).Nodup := by
  unfold registerActor
  cases hl : lookupByName actors actor.name with
  | some p =>
    have heq : (actors.map (fun q => if q.1 = actor.name then (q.1, actor) else q)).map
        Prod.fst = actors.map Prod.fst := by
      rw [List.map_map]
      apply List.map_congr_left
      intro q _
      by_cases hq : q.1 = actor.name <;> simp [hq]
    rw [heq]
    exact h
  | none =>
    rw [List.map_append, List.nodup_append]
    refine ⟨h, List.nodup_singleton _, ?_⟩
    intro x hx hx2
    simp only [List.map_cons, List.map_nil, List.mem_singleton] at hx2
    subst hx2
    exact (lookupByName_eq_none_iff _ _).mp hl hx

theorem unregisterActor_keys_nodup (actors : ActorRegistry) (actor : ActorProxy)
    (h : (actors.map Prod.fst).Nodup) :
    ((unregisterActor actors actor).map Prod.fst).Nodup :=
  ((deleteName_sublist actors actor.name).map Prod.fst).nodup h

theorem applyRegistryOps_keys_nodup (ops : List RegistryOp) :
    ((applyRegistryOps ops).map Prod.fst).Nodup := by
  suffices h : ∀ actors : ActorRegistry, (actors.map Prod.fst).Nodup →
      ((ops.foldl applyRegistryOp actors).map Prod.fst).Nodup from
    h [] List.nodup_nil
  induction ops with
  | nil => exact fun actors h => h
  | cons op rest ih =>
    intro actors h
    rw [List.foldl_cons]
    apply ih
    cases op with
    | registerOp actor => exact registerActor_keys_nodup actors actor h
    | unregisterOp actor => exact unregisterActor_keys_nodup actors actor h

/-- Claim C6: after any sequence of register/unregister calls the registry
holds at most one proxy per name (its key list is duplicate-free), an
inbound message whose `from` field resolves to a registered proxy is
dispatched to exactly that proxy, and a message whose `from` field is
unregistered is reported as unroutable with a logged error and dispatched to
no proxy. -/
theorem C6_registry_unique_keys_and_routing (ops : List RegistryOp)
    (msg1 msg2 : ProtocolMessage) (p : ActorProxy)
    (h1 : lookupByName (applyRegistryOps ops) msg1.fromActor = some p)
    (h2 : lookupByName (applyRegistryOps ops) msg2.fromActor = none) :
    ((applyRegistryOps ops).map Prod.fst).Nodup
    ∧ handleInboundMessage (applyRegistryOps ops) msg1
        = DispatchResult.dispatched p msg1
    ∧ handleInboundMessage (applyRegistryOps ops) msg2
        = DispatchResult.unroutable ("Unknown actor: " ++ msg2.fromActor) := by
  refine ⟨applyRegistryOps_keys_nodup ops, ?_, ?_⟩
  · unfold handleInboundMessage
    rw [h1]
  · unfold handleInboundMessage
    rw [h2]

/-- Witness for `C6_registry_unique_keys_and_routing`: after registering two
proxies and unregistering the first, a message from the still-registered
name is dispatched to its proxy and a message from the removed name is
unroutable. -/
theorem C6_registry_unique_keys_and_routing_witness :
    ((applyRegistryOps [RegistryOp.registerOp sampleProxy, RegistryOp.registerOp otherProxy,
        RegistryOp.unregisterOp sampleProxy]).map Prod.fst).Nodup
    ∧ handleInboundMessage
        (applyRegistryOps [RegistryOp.registerOp sampleProxy, RegistryOp.registerOp otherProxy,
          RegistryOp.unregisterOp sampleProxy])
        { fromActor := "thread7", body := "paused" }
        = DispatchResult.dispatched otherProxy { fromActor := "thread7", body := "paused" }
    ∧ handleInboundMessage
        (applyRegistryOps [RegistryOp.registerOp sampleProxy, RegistryOp.registerOp otherProxy,
          RegistryOp.unregisterOp sampleProxy])
        { fromActor := "tab1", body := "paused" }
        = DispatchResult.unroutable ("Unknown actor: "
            ++ ({ fromActor := "tab1", body := "paused" } : ProtocolMessage).fromActor) :=
  C6_registry_unique_keys_and_routing
    [RegistryOp.registerOp sampleProxy, RegistryOp.registerOp otherProxy,
      RegistryOp.unregisterOp sampleProxy]
    { fromActor := "thread7", body := "paused" }
    { fromActor := "tab1", body := "paused" }
    otherProxy (by decide) (by decide)

/-! ### Claim C7 -/

/-- Claim C7: two independent callers requesting an interrupt back-to-back
before the remote confirms share the single in-flight interrupt — only one
interrupt message is sent on the wire, neither caller resolves before the
remote confirmation arrives, and both resolve exactly when the single
underlying interrupt completes; two concurrent resume requests likewise
share one in-flight resume and one wire message; and at most one interrupt
and at most one resume are in flight per thread at any time (modelled from
the spec, as the coordinator source is not part of this snapshot). -/
theorem C7_interrupt_resume_coalescing (caller1 caller2 : Nat) :
    sentInterruptCount
      (requestInterrupt (requestInterrupt initialPauseCoordinatorState caller1) caller2) = 1
    ∧ (requestInterrupt (requestInterrupt initialPauseCoordinatorState caller1)
        caller2).resolvedCallers = []
    ∧ (notifyInterrupted (requestInterrupt
        (requestInterrupt initialPauseCoordinatorState caller1) caller2)).resolvedCallers
      = [caller1, caller2]
    ∧ (notifyInterrupted (requestInterrupt
        (requestInterrupt initialPauseCoordinatorState caller1) caller2)).sentMessages
      = [WireMessage.interruptMessage]
    ∧ sentResumeCount
        (requestResume (requestResume initialPauseCoordinatorState caller1) caller2) = 1
    ∧ (requestResume (requestResume initialPauseCoordinatorState caller1)
        caller2).resolvedCallers = []
    ∧ (notifyResumed (requestResume
        (requestResume initialPauseCoordinatorState caller1) caller2)).resolvedCallers
      = [caller1, caller2]
    ∧ (∀ s : PauseCoordinatorState,
        inFlightInterrupts s ≤ 1 ∧ inFlightResumes s ≤ 1) := by
  refine ⟨rfl, rfl, rfl, rfl, rfl, rfl, rfl, ?_⟩
  intro s
  constructor
  · unfold inFlightInterrupts
    cases s.pendingInterruptWaiters <;> simp
  · unfold inFlightResumes
    cases s.pendingResumeWaiters <;> simp

/-! ### Claim C8 -/

/-- Claim C8: `fromGrip` is a total function — every grip yields a
`VariableAdapter` — and for an object-shaped grip whose `type` is not one of
the recognized subtypes it falls back to displaying the grip's type string
with no associated object grip adapter and no state change. -/
theorem C8_unrecognized_grip_fallback (varname : String) (g : TaggedGrip)
    (threadLifetime : Bool) (s : ThreadGripState)
    (h : g.type ∉ switchedGripTypes) :
    fromGrip varname (Grip.tagged g) threadLifetime s
      = ({ varname := varname, value := g.type, objectGripAdapter := none }, s) := by
  simp only [switchedGripTypes, List.mem_cons, List.mem_singleton,
    List.not_mem_nil, or_false, not_or] at h
  obtain ⟨h1, h2, h3, h4, h5, h6, h7, h8, h9⟩ := h
  simp only [fromGrip]
  rw [if_neg (by simp [h1, h2, h3, h4, h5, h6]), if_neg h7, if_neg h8, if_neg h9]

/-- Witness for `C8_unrecognized_grip_fallback` on a grip of the
unrecognized type `"mapEntry"`. -/
theorem C8_unrecognized_grip_fallback_witness :
    fromGrip "entry" (Grip.tagged unrecognizedTaggedGrip) false initialThreadGripState
      = ({ varname := "entry", value := unrecognizedTaggedGrip.type,
           objectGripAdapter := none }, initialThreadGripState) :=
  C8_unrecognized_grip_fallback "entry" unrecognizedTaggedGrip false
    initialThreadGripState (by decide)

/-! ### Claim C9 -/

/-- Claim C9: primitive evaluation results carry no object grip adapter and
display the primitive's rendering — a number grip displays its decimal
string, a boolean grip its boolean string, a string grip the string wrapped
in double quotes — and an evaluation whose remote result is the number grip
`2` (as for `evaluate("1+1")` while paused) yields the DAP variable with
value `"2"` and no `variablesReference`. -/
theorem C9_primitive_evaluation_results (varname : String) (n : Int) (b : Bool)
    (value : String) (threadLifetime : Bool) (s : ThreadGripState) :
    fromGrip varname (Grip.number n) threadLifetime s
      = ({ varname := varname, value := numberToString n, objectGripAdapter := none }, s)
    ∧ fromGrip varname (Grip.boolean b) threadLifetime s
      = ({ varname := varname, value := boolToString b, objectGripAdapter := none }, s)
    ∧ fromGrip varname (Grip.stringValue value) threadLifetime s
      = ({ varname := varname, value := "\"" ++ value ++ "\"",
           objectGripAdapter := none }, s)
    ∧ threadEvaluateConsole (some (Grip.number 2)) s
      = ({ name := "", value := "2", variablesReference := none }, s) := by
  refine ⟨rfl, rfl, rfl, rfl⟩

/-! ### Claim C10 -/

/-- Claim C10: `DebugConnection.getOrCreate` never itself modifies the actor
registry — for a registered name it returns the existing proxy with the
registry unchanged, and for an unregistered name it returns exactly the
factory's result without inserting anything itself, so the created proxy is
registered only if the factory does so. -/
theorem C10_getOrCreate_registry_effect (actors1 actors2 : ActorRegistry)
    (name1 name2 : String) (p : ActorProxy)
    (createActor : ActorRegistry → ActorProxy × ActorRegistry)
    (h1 : lookupByName actors1 name1 = some p)
    (h2 : lookupByName actors2 name2 = none) :
    getOrCreate actors1 name1 createActor = (p, actors1)
    ∧ getOrCreate actors2 name2 createActor = createActor actors2 := by
  constructor
  · unfold getOrCreate
    rw [h1]
  · unfold getOrCreate
    rw [h2]

/-- Witness for `C10_getOrCreate_registry_effect` with a registering
factory. -/
theorem C10_getOrCreate_registry_effect_witness :
    getOrCreate [("tab1", sampleProxy)] "tab1" sampleFactory
      = (sampleProxy, [("tab1", sampleProxy)])
    ∧ getOrCreate [] "thread2" sampleFactory = sampleFactory [] :=
  C10_getOrCreate_registry_effect [("tab1", sampleProxy)] [] "tab1" "thread2"
    sampleProxy sampleFactory (by decide) (by decide)

end VsCodeFirefoxDebug
